import Mathlib

/-
Verification of the OTT weekly-release notifier.

The repository contains two near-duplicate single-pass pipeline scripts,
src/main.py and src/send_ott_updates.py, each of shape
fetch -> filter by date window -> (dedupe) -> enrich -> rank -> format -> send.
This file gives a shallow embedding of both scripts. External HTTP traffic is
modelled by oracles: a page oracle giving the "result" array of each catalog
page, and a network oracle giving the parsed OMDb JSON per title. Machine
floats only ever carry decimal rating literals here, so they are embedded as
rationals; Python strings are Lean strings compared by code point.

Namespace MainPy embeds src/main.py, namespace SendOtt embeds
src/send_ott_updates.py, and shared helpers (Python truthiness, date and
decimal parsing, the plot truncation that is textually identical in both
scripts) live at the top of namespace OTT.
-/

namespace OTT

/-- Calendar date (year, month, day), embedding Python datetime.date. -/
structure Date where
  year : Nat
  month : Nat
  day : Nat
deriving DecidableEq, Repr

/-- Python date ordering: lexicographic on (year, month, day). -/
def Date.le (a b : Date) : Bool :=
  if a.year ≠ b.year then decide (a.year < b.year)
  else if a.month ≠ b.month then decide (a.month < b.month)
  else decide (a.day ≤ b.day)

/-- Gregorian leap-year rule, as used by datetime when validating day-of-month. -/
def isLeapYear (y : Nat) : Bool :=
  y % 4 == 0 && (y % 100 != 0 || y % 400 == 0)

/-- Number of days in a month, as validated by datetime.strptime. -/
def daysInMonth (y m : Nat) : Nat :=
  if m == 2 then (if isLeapYear y then 29 else 28)
  else if m == 4 || m == 6 || m == 9 || m == 11 then 30
  else 31

/-- Split a character list at every occurrence of the separator, as Python
str.split with a one-character separator does: n separators give n+1 pieces. -/
def splitOnChar (sep : Char) : List Char → List (List Char)
  | [] => [[]]
  | c :: cs =>
    match splitOnChar sep cs with
    | [] => [[]]
    | r :: rs => if c = sep then [] :: r :: rs else (c :: r) :: rs

/-- Value of a nonempty all-digit character run, none otherwise. -/
def digits? (cs : List Char) : Option Nat :=
  if cs.isEmpty || !cs.all Char.isDigit then none
  else some (cs.foldl (fun acc c => 10 * acc + (c.toNat - 48)) 0)

/-- Embedding of datetime.strptime(s, "%Y-%m-%d").date(): the whole string
must be year-month-day separated by "-", with 1-4 year digits, 1-2 month and
day digits (strptime accepts unpadded fields), and a calendar-valid month and
day; anything else raises ValueError, i.e. returns none here. -/
def parseDate (s : String) : Option Date :=
  match splitOnChar '-' s.data with
  | [ys, ms, ds] =>
    match digits? ys, digits? ms, digits? ds with
    | some y, some m, some d =>
      if decide (ys.length ≤ 4) && decide (ms.length ≤ 2) && decide (ds.length ≤ 2)
          && decide (1 ≤ y) && decide (1 ≤ m) && decide (m ≤ 12)
          && decide (1 ≤ d) && decide (d ≤ daysInMonth y m) then
        some ⟨y, m, d⟩
      else none
    | _, _, _ => none
  | _ => none

/-- Month abbreviation used by strftime %b in the C locale. -/
def monthAbbrev (m : Nat) : String :=
  if m == 1 then "Jan" else if m == 2 then "Feb" else if m == 3 then "Mar"
  else if m == 4 then "Apr" else if m == 5 then "May" else if m == 6 then "Jun"
  else if m == 7 then "Jul" else if m == 8 then "Aug" else if m == 9 then "Sep"
  else if m == 10 then "Oct" else if m == 11 then "Nov" else if m == 12 then "Dec"
  else ""

/-- Zero-pad a number to two digits, as strftime %d and %m do. -/
def pad2 (n : Nat) : String :=
  if n < 10 then "0" ++ toString n else toString n

/-- Zero-pad a number to four digits, as strftime %Y and str(date) do. -/
def pad4 (n : Nat) : String :=
  if n < 10 then "000" ++ toString n
  else if n < 100 then "00" ++ toString n
  else if n < 1000 then "0" ++ toString n
  else toString n

/-- strftime("%d %b") on a date. -/
def Date.fmtDM (d : Date) : String :=
  pad2 d.day ++ " " ++ monthAbbrev d.month

/-- strftime("%d %b %Y") on a date. -/
def Date.fmtDMY (d : Date) : String :=
  pad2 d.day ++ " " ++ monthAbbrev d.month ++ " " ++ pad4 d.year

/-- str(date): the ISO form YYYY-MM-DD, produced by f-string interpolation of a date. -/
def Date.iso (d : Date) : String :=
  pad4 d.year ++ "-" ++ pad2 d.month ++ "-" ++ pad2 d.day

/-- Python string emptiness test, on the underlying character list. -/
def strEmpty (s : String) : Bool :=
  s.data.isEmpty

/-- Python truthiness of an optional string: None and the empty string are falsy. -/
def truthy (o : Option String) : Bool :=
  match o with
  | none => false
  | some s => !strEmpty s

/-- Python `a or b` on optional strings: the first operand when truthy, otherwise
the second operand unchanged (even when the second is itself falsy). -/
def pyOr (a b : Option String) : Option String :=
  match a with
  | some s => if strEmpty s then b else some s
  | none => b

/-- Strip leading and trailing whitespace, as Python float(...) does. -/
def trimWs (cs : List Char) : List Char :=
  ((cs.dropWhile Char.isWhitespace).reverse.dropWhile Char.isWhitespace).reverse

/-- Decimal fragment of Python float(...) applied to a string: optional
surrounding whitespace, optional sign, then integer digits, fractional digits,
or both around one dot; the value of "a.b" is the exact rational
(a * 10^len(b) + b) / 10^len(b). Exponent, infinity and nan spellings are
omitted since no rating field ever carries them; every other string
(e.g. "N/A") raises ValueError in Python and returns none here. The binary
rounding of an IEEE float is dropped: it is monotone and injective on the
short decimal literals ratings carry, so every comparison made of these
values is unchanged. -/
def parseDecimal (s0 : String) : Option ℚ :=
  let cs := trimWs s0.data
  let signed : Bool × List Char :=
    match cs with
    | '-' :: rest => (true, rest)
    | '+' :: rest => (false, rest)
    | _ => (false, cs)
  let sgn : Int := if signed.1 then -1 else 1
  match splitOnChar '.' signed.2 with
  | [a] => (digits? a).map (fun n => mkRat (sgn * n) 1)
  | [a, b] =>
    if (a.all Char.isDigit && b.all Char.isDigit) && !(a.isEmpty && b.isEmpty) then
      some (mkRat (sgn * (((digits? a).getD 0 : Int) * (10 : Int) ^ b.length + ((digits? b).getD 0 : Int)))
        ((10 : Nat) ^ b.length))
    else none
  | _ => none

/-- Python string comparison on the underlying code-point lists: lexicographic,
code point by code point. -/
def charListLe : List Char → List Char → Bool
  | [], _ => true
  | _ :: _, [] => false
  | a :: as, b :: bs =>
    if a.toNat < b.toNat then true
    else if b.toNat < a.toNat then false
    else charListLe as bs

/-- Python `a <= b` on strings. -/
def pyStrLe (a b : String) : Bool :=
  charListLe a.data b.data

/-- Python str.capitalize(): first character uppercased, the rest lowercased
(the ASCII service names that reach it make the ASCII case maps faithful). -/
def pyCapitalize (s : String) : String :=
  match s.data with
  | [] => ""
  | c :: cs => String.mk (c.toUpper :: cs.map Char.toLower)

/-- Plot truncation, textually identical in both scripts:
if len(plot) > 350: plot = plot[:347] + "...". -/
def truncatePlot (plot : String) : String :=
  if plot.length > 350 then String.mk (plot.data.take 347) ++ "..." else plot

/-- A record of the streaming-API "result" array, projected onto the dict keys
the two scripts read; a key missing from the JSON object is none. streamingInfo
maps each country key to the list of service keys under it, which is all the
scripts inspect of it. imdbRating and plot are the keys the send variant
writes back during enrichment (absent on fetched items). -/
structure RawItem where
  title : Option String
  name : Option String
  originalTitle : Option String
  releaseDate : Option String
  firstAirDate : Option String
  release_date : Option String
  originalRelease : Option String
  year : Option Int
  streamingInfo : List (String × List String)
  imdbRating : Option String
  plot : Option String
deriving DecidableEq, Repr

/-- Convenience builder for concrete test items: remaining keys absent. -/
def mkItem (title name releaseDate firstAirDate : Option String) (year : Option Int) : RawItem :=
  ⟨title, name, none, releaseDate, firstAirDate, none, none, year, [], none, none⟩

/-- The parsed OMDb JSON reply, projected onto the two keys the scripts read.
A reply with Response "False" (title not found) carries neither key, so it is
⟨none, none⟩, the same projection as the empty dict a failed request yields. -/
structure OmdbResp where
  imdbRating : Option String
  Plot : Option String
deriving DecidableEq, Repr

/-- The dict literal main.py omdb_info_by_title returns: both keys always present. -/
structure OmdbInfo where
  imdbRating : String
  Plot : String
deriving DecidableEq, Repr

/-- Parsed JSON bodies as far as safe_get is concerned: it returns them
opaquely, so objects with atomic values and an opaque constructor for any
other JSON shape suffice; the empty object stands for the {} literal. -/
inductive Json where
  | obj (fields : List (String × String))
  | other (tag : String)
deriving DecidableEq, Repr

/-- One outcome of requests.get: either the request raised a transport-level
RequestException (connection error, timeout, too many redirects), or a
response arrived with a status code and a body that parses as JSON (some)
or does not (none). -/
inductive HttpOutcome where
  | transportError
  | response (status : Nat) (body : Option Json)
deriving DecidableEq, Repr

/-- Embedding of safe_get from both scripts (identical behavior: main.py
catches Exception, send_ott_updates.py catches RequestException, and every
failure reachable here - transport error, raise_for_status on a 4xx or 5xx
status, json() on an unparseable body - is a RequestException in requests).
raise_for_status raises exactly for statuses 400-599; on any caught failure
the function logs and returns the empty dict. -/
def safe_get (o : HttpOutcome) : Json :=
  match o with
  | HttpOutcome.transportError => Json.obj []
  | HttpOutcome.response status body =>
    if 400 ≤ status ∧ status ≤ 599 then Json.obj []
    else
      match body with
      | none => Json.obj []
      | some j => j

/-- Outcome of one notifier call: the skipped branch records the warning the
script prints, the posted branch records the chat id and text of the HTTP POST. -/
inductive SendOutcome where
  | skipped (log : String)
  | posted (chatId text : String)
deriving DecidableEq, Repr

namespace SendOtt

/-- Title extraction in send_ott_updates.py:
item.get("title") or item.get("name", "Unknown"). -/
def titleOf (it : RawItem) : String :=
  match it.title with
  | some s => if strEmpty s then it.name.getD "Unknown" else s
  | none => it.name.getD "Unknown"

/-- The per-item window filter of fetch_new_releases (lines 68-78): take
releaseDate or firstAirDate, skip when absent or falsy, skip when strptime
fails, keep exactly when the parsed date lies in [start, end]. -/
def keepInWindow (startD endD : Date) (it : RawItem) : Bool :=
  match pyOr it.releaseDate it.firstAirDate with
  | none => false
  | some s =>
    if strEmpty s then false
    else
      match parseDate s with
      | none => false
      | some d => Date.le startD d && Date.le d endD

/-- The page loop of fetch_new_releases (lines 50-66): pages 1 and 2 are
requested in order; a failed request, a missing "result" key or an empty
result array all give an empty (falsy) list and break the loop. The oracle
pages p is the result array of page p under that collapse. -/
def fetchPages (pages : Nat → List RawItem) : List RawItem :=
  if (pages 1).isEmpty then []
  else if (pages 2).isEmpty then pages 1
  else pages 1 ++ pages 2

/-- Fetched records that survive the window filter, in page order. -/
def filteredReleases (pages : Nat → List RawItem) (startD endD : Date) : List RawItem :=
  (fetchPages pages).filter (keepInWindow startD endD)

/-- Dedup identity: (title, year), as in lines 84-86. -/
def itemKey (it : RawItem) : String × Option Int :=
  (titleOf it, it.year)

/-- The dedup loop of lines 80-89: walk the list keeping a set of seen keys,
keep an item exactly when its key has not been seen. -/
def dedupeAux : List RawItem → List (String × Option Int) → List RawItem
  | [], _ => []
  | it :: rest, seen =>
    if itemKey it ∈ seen then dedupeAux rest seen
    else it :: dedupeAux rest (itemKey it :: seen)

/-- fetch_new_releases: fetch up to two pages, filter each record by the date
window, then deduplicate on (title, year) in first-seen order. -/
def fetch_new_releases (pages : Nat → List RawItem) (startD endD : Date) : List RawItem :=
  dedupeAux (filteredReleases pages startD endD) []

/-- The two dict writes of enrich_with_omdb lines 108-109. -/
def setOmdbFields (it : RawItem) (rating plot : String) : RawItem :=
  ⟨it.title, it.name, it.originalTitle, it.releaseDate, it.firstAirDate, it.release_date,
   it.originalRelease, it.year, it.streamingInfo, some rating, some plot⟩

/-- enrich_with_omdb (lines 94-111): with a falsy API key the list is returned
unmodified; otherwise each item gets imdbRating and plot from the OMDb oracle,
defaulting to "N/A" and "No plot available." when the reply lacks the key
(request failure and not-found replies both give the all-none reply). -/
def enrich_with_omdb (apiKey : Option String) (net : String → OmdbResp)
    (releases : List RawItem) : List RawItem :=
  if !truthy apiKey then releases
  else releases.map (fun it =>
    let resp := net (titleOf it)
    setOmdbFields it (resp.imdbRating.getD "N/A") (resp.Plot.getD "No plot available."))

/-- rating_key of rank_releases: float(item.get("imdbRating", 0)), with
ValueError and TypeError collapsing to 0.0. -/
def rating_key (it : RawItem) : ℚ :=
  match it.imdbRating with
  | none => 0
  | some s => (parseDecimal s).getD 0

/-- May-precede relation of sorted(..., key=rating_key, reverse=True). -/
def rankRel (a b : RawItem) : Prop :=
  rating_key b ≤ rating_key a

instance : DecidableRel rankRel :=
  fun a b => inferInstanceAs (Decidable (rating_key b ≤ rating_key a))

/-- rank_releases: Python sorted with key=rating_key and reverse=True is the
stable descending sort, which insertionSort with the non-strict may-precede
relation rankRel computes exactly. -/
def rank_releases (releases : List RawItem) : List RawItem :=
  releases.insertionSort rankRel

/-- Ascending Python string order, used by sorted(...) on platform names. -/
def strAsc (a b : String) : Prop :=
  pyStrLe a b = true

instance : DecidableRel strAsc :=
  fun a b => inferInstanceAs (Decidable (pyStrLe a b = true))

/-- Platform rendering of format_telegram_message lines 141-146: capitalize
every service key of every country, then sorted(list(set(...))) - i.e. the
distinct values in ascending order - joined by ", ", with the falsy empty
join replaced by "N/A". -/
def platformsStr (it : RawItem) : String :=
  let platforms := ((it.streamingInfo.map Prod.snd).flatten).map pyCapitalize
  let joined := String.intercalate ", " (List.insertionSort strAsc platforms.dedup)
  if strEmpty joined then "N/A" else joined

/-- release_date_str of format_telegram_message line 148:
item.get("releaseDate") or item.get("firstAirDate", "N/A"). -/
def releaseDateStrOf (it : RawItem) : String :=
  match it.releaseDate with
  | some s => if strEmpty s then it.firstAirDate.getD "N/A" else s
  | none => it.firstAirDate.getD "N/A"

/-- Lines 149-152: re-parse the date string and render %d %b %Y, or "N/A"
when strptime raises. -/
def releaseDateFormatted (it : RawItem) : String :=
  match parseDate (releaseDateStrOf it) with
  | some d => d.fmtDMY
  | none => "N/A"

/-- The four message lines one item contributes (loop body, lines 136-161). -/
def itemBlock (it : RawItem) : String :=
  let rating := it.imdbRating.getD "N/A"
  let plot := truncatePlot (it.plot.getD "No plot available.")
  "📽️ *" ++ titleOf it ++ "* (IMDb: " ++ rating ++ ")\n"
    ++ "🗓️ Release Date: " ++ releaseDateFormatted it ++ "\n"
    ++ "📺 Platform(s): " ++ platformsStr it ++ "\n"
    ++ "📝 " ++ plot ++ "\n\n"

/-- format_telegram_message (lines 125-163). -/
def format_telegram_message (items : List RawItem) (startD endD : Date) : String :=
  if items.isEmpty then
    "🎬 *No new OTT releases found for " ++ startD.fmtDM ++ " - " ++ endD.fmtDM ++ "*"
  else
    "🎬 *OTT Releases in India (" ++ startD.fmtDM ++ " - " ++ endD.fmtDM ++ ")*\n"
      ++ "──────────────────────────\n\n"
      ++ String.join (items.map itemBlock)

/-- send_telegram_message (lines 165-185): with a falsy token or chat id it
prints the warning and returns without any POST; otherwise it POSTs. -/
def send_telegram_message (token chatId : Option String) (text : String) : SendOutcome :=
  if !truthy token || !truthy chatId then
    SendOutcome.skipped
      "Telegram credentials (BOT_TOKEN, CHAT_ID) are not set. Skipping message send."
  else
    SendOutcome.posted (chatId.getD "") text

/-- Observable outcome of one run of main(): whether the startup secret check
aborted it, whether the fetch stage ran, what the notifier was handed (none
when no notifier call happened), and the process exit status (the script
never calls sys.exit, so a plain return exits with status 0). -/
structure RunResult where
  abortedAtStartup : Bool
  fetchAttempted : Bool
  sent : Option SendOutcome
  exitCode : Nat
deriving DecidableEq, Repr

/-- The inline no-releases message main() line 206 sends when nothing survives. -/
def noReleasesInline (startD endD : Date) : String :=
  "🎬 No new OTT releases found for " ++ startD.fmtDM ++ " - " ++ endD.fmtDM

/-- main() of send_ott_updates.py (lines 189-221), with the date window that
get_week_range derives from the wall clock passed in as startD, endD and the
two HTTP collaborators passed as oracles. The startup check uses Python
all([...]) on the four secrets, so a None or empty secret takes the early
return; the early return is a normal return, hence exit status 0. -/
def mainRun (streamKey omdbKey token chatId : Option String) (startD endD : Date)
    (pages : Nat → List RawItem) (net : String → OmdbResp) : RunResult :=
  if !(truthy streamKey && truthy omdbKey && truthy token && truthy chatId) then
    ⟨true, false, none, 0⟩
  else
    let new_releases := fetch_new_releases pages startD endD
    if new_releases.isEmpty then
      ⟨false, true, some (send_telegram_message token chatId (noReleasesInline startD endD)), 0⟩
    else
      let enriched := enrich_with_omdb omdbKey net new_releases
      let ranked := rank_releases enriched
      let message := format_telegram_message ranked startD endD
      ⟨false, true, some (send_telegram_message token chatId message), 0⟩

end SendOtt

namespace MainPy

/-- Title extraction in main.py line 89:
item.get("title") or item.get("name") or item.get("originalTitle") or "Unknown",
i.e. the first truthy field, else the truthy literal "Unknown". -/
def titleOf (it : RawItem) : String :=
  match pyOr it.title (pyOr it.name it.originalTitle) with
  | some s => if strEmpty s then "Unknown" else s
  | none => "Unknown"

/-- The four-way date field fallback of main.py line 71. -/
def dateChain (it : RawItem) : Option String :=
  pyOr it.releaseDate (pyOr it.firstAirDate (pyOr it.release_date it.originalRelease))

/-- Lines 72-87 of main.py: date_ok becomes true exactly when the chain gives
a truthy string whose first ten characters strptime-parse inside the window;
the function returns the parsed date in that case and none when the item is
skipped by the continue. -/
def dateVal (startD endD : Date) (it : RawItem) : Option Date :=
  match dateChain it with
  | none => none
  | some rd =>
    if strEmpty rd then none
    else
      match parseDate (String.mk (rd.data.take 10)) with
      | none => none
      | some d => if Date.le startD d && Date.le d endD then some d else none

/-- omdb_info_by_title (lines 51-60): a falsy API key, or any exception while
requesting or JSON-decoding (oracle value none), yields the sentinel dict;
otherwise the reply fields with the same sentinels as dict defaults. -/
def omdb_info_by_title (apiKey : Option String) (net : String → Option OmdbResp)
    (title : String) : OmdbInfo :=
  if !truthy apiKey then ⟨"N/A", "No plot available"⟩
  else
    match net title with
    | none => ⟨"N/A", "No plot available"⟩
    | some r => ⟨r.imdbRating.getD "N/A", r.Plot.getD "No plot available"⟩

/-- list(dict.fromkeys(l)): distinct values keeping the first occurrence order. -/
def dedupFirstAux : List String → List String → List String
  | [], _ => []
  | s :: rest, seen =>
    if s ∈ seen then dedupFirstAux rest seen
    else s :: dedupFirstAux rest (s :: seen)

/-- Platform gathering of main.py lines 91-97: service keys of every country
in streamingInfo order, then unique keeping first occurrences. -/
def platformsList (it : RawItem) : List String :=
  dedupFirstAux ((it.streamingInfo.map Prod.snd).flatten) []

/-- Line 107: ", ".join(platforms) if platforms else "Unknown" - the truthiness
test is on the list, not on the joined string. -/
def platformsStr (it : RawItem) : String :=
  let ps := platformsList it
  if ps.isEmpty then "Unknown" else String.intercalate ", " ps

/-- The dict main.py appends to results (lines 104-110). -/
structure Entry where
  title : String
  release_date : String
  platforms : String
  imdb : String
  plot : String
deriving DecidableEq, Repr

/-- rating_key of lines 112-116: float(x["imdb"]) with any exception giving 0.0. -/
def entry_rating_key (e : Entry) : ℚ :=
  (parseDecimal e.imdb).getD 0

/-- May-precede relation of results.sort(key=lambda x: (rating_key(x),
x["title"]), reverse=True): descending lexicographic on the (rating, title)
pair, non-strict. -/
def entryRel (a b : Entry) : Prop :=
  entry_rating_key b < entry_rating_key a ∨
    (entry_rating_key a = entry_rating_key b ∧ pyStrLe b.title a.title = true)

instance : DecidableRel entryRel :=
  fun a b =>
    inferInstanceAs (Decidable (entry_rating_key b < entry_rating_key a ∨
      (entry_rating_key a = entry_rating_key b ∧ pyStrLe b.title a.title = true)))

/-- Line 117: the reverse tuple-key sort, computed as the stable insertion
sort under the non-strict may-precede relation. -/
def sortEntries (entries : List Entry) : List Entry :=
  entries.insertionSort entryRel

/-- build_weekly_list (lines 63-118), with the window from week_range passed
in and the two HTTP collaborators as oracles. Pages 1 and 2 are both fetched
unconditionally (no break in this variant), each in-window item is enriched
inline and appended, and the result list is sorted at the end. -/
def build_weekly_list (omdbKey : Option String) (pages : Nat → List RawItem)
    (net : String → Option OmdbResp) (startD endD : Date) : List Entry :=
  let raw := pages 1 ++ pages 2
  let entries := raw.filterMap (fun it =>
    match dateVal startD endD it with
    | none => none
    | some d =>
      let title := titleOf it
      let omdb := omdb_info_by_title omdbKey net title
      some ⟨title, d.fmtDMY, platformsStr it, omdb.imdbRating, omdb.Plot⟩)
  sortEntries entries

/-- The three message lines one entry contributes (loop body, lines 127-134);
the plot passes through `it["plot"] or ""` (identity on the always-string
entry plots) and the shared truncation. -/
def itemBlock (e : Entry) : String :=
  "📽️ *" ++ e.title ++ "*  (IMDb: " ++ e.imdb ++ ")\n"
    ++ "Release Date: " ++ e.release_date ++ "  |  Platform: " ++ e.platforms ++ "\n"
    ++ "📝 " ++ truncatePlot e.plot ++ "\n\n"

/-- format_message (lines 121-135); the empty branch interpolates str(start)
and str(end), i.e. the ISO date forms. -/
def format_message (items : List Entry) (startD endD : Date) : String :=
  if items.isEmpty then
    "🎬 No OTT releases found between " ++ startD.iso ++ " and " ++ endD.iso ++ "."
  else
    "🎬 *OTT Releases in India*  (" ++ startD.fmtDM ++ " - " ++ endD.fmtDM ++ ")\n"
      ++ "─────────────────────────────\n\n"
      ++ String.join (items.map itemBlock)

/-- send_telegram (lines 138-148): falsy token or chat id prints the warning
and returns without any POST; otherwise it POSTs. -/
def send_telegram (token chatId : Option String) (text : String) : SendOutcome :=
  if !truthy token || !truthy chatId then
    SendOutcome.skipped "Missing Telegram credentials."
  else
    SendOutcome.posted (chatId.getD "") text

/-- Observable outcome of one run of main() in main.py: the message it
formats, what the notifier was handed, and the exit status (no sys.exit
anywhere, so always 0). -/
structure RunResult where
  message : String
  sent : SendOutcome
  exitCode : Nat
deriving DecidableEq, Repr

/-- main() of main.py (lines 150-153): no startup secret check of any kind -
the pipeline runs whatever the environment holds, and the message is always
handed to send_telegram. streamKey only feeds the request header inside the
page oracle, so it does not appear on the right-hand side. -/
def mainRun (_streamKey omdbKey token chatId : Option String) (startD endD : Date)
    (pages : Nat → List RawItem) (net : String → Option OmdbResp) : RunResult :=
  let items := build_weekly_list omdbKey pages net startD endD
  let message := format_message items startD endD
  ⟨message, send_telegram token chatId message, 0⟩

end MainPy

/- Concrete fixtures used by scenario conjuncts, witnesses and counterexamples. -/

/-- Window start 2024-01-01 of the scenario in the spec. -/
def cw1 : Date := ⟨2024, 1, 1⟩

/-- Window end 2024-01-07 of the scenario in the spec. -/
def cw7 : Date := ⟨2024, 1, 7⟩

/-- Scenario item whose releaseDate 2024-01-03 lies inside the window. -/
def itemA : RawItem := mkItem (some "Movie A") none (some "2024-01-03") none (some 2024)

/-- Scenario item whose releaseDate 2023-12-20 lies outside the window. -/
def itemB : RawItem := mkItem (some "Movie B") none (some "2023-12-20") none (some 2023)

/-- Page oracle of the scenario: page 1 returns the two items, page 2 is empty. -/
def pagesAB : Nat → List RawItem := fun p => if p = 1 then [itemA, itemB] else []

/-- An in-window item, listed twice by the duplicate page oracle. -/
def dupItem : RawItem := mkItem (some "Dup") none (some "2024-01-03") none (some 2024)

/-- Page oracle returning the same record twice on page 1. -/
def pagesDup : Nat → List RawItem := fun p => if p = 1 then [dupItem, dupItem] else []

/-- Page oracle with no results at all. -/
def pagesEmpty : Nat → List RawItem := fun _ => []

/-- In-window item titled Apple with rating 7.5. -/
def tieA : RawItem :=
  ⟨some "Apple", none, none, some "2024-01-03", none, none, none, some 2024, [], some "7.5", none⟩

/-- In-window item titled Banana with the same rating 7.5. -/
def tieB : RawItem :=
  ⟨some "Banana", none, none, some "2024-01-04", none, none, none, some 2024, [], some "7.5", none⟩

/-- A fetched item without enrichment fields. -/
def plainItem : RawItem := mkItem (some "X") none (some "2024-01-03") none none

/-- OMDb oracle whose every reply lacks both keys (request failure or
Response False for every title). -/
def netEmpty : String → OmdbResp := fun _ => ⟨none, none⟩

/-- OMDb oracle for main.py whose every request raises (exception path). -/
def netNone : String → Option OmdbResp := fun _ => none

/-- A 351-character plot, one over the truncation budget. -/
def longPlot : String := String.mk (List.replicate 351 'x')

/-- Entry titled Apple with rating 7.5, for tie-break checks on main.py. -/
def entryA : MainPy.Entry := ⟨"Apple", "03 Jan 2024", "Unknown", "7.5", "p"⟩

/-- Entry titled Banana with the same rating 7.5. -/
def entryB : MainPy.Entry := ⟨"Banana", "04 Jan 2024", "Unknown", "7.5", "p"⟩

/- Helper lemmas shared by the claim theorems. -/

theorem charListLe_total : ∀ xs ys : List Char, charListLe xs ys = true ∨ charListLe ys xs = true
  | [], [] => Or.inl rfl
  | [], _ :: _ => Or.inl rfl
  | _ :: _, [] => Or.inr rfl
  | a :: as, b :: bs => by
    by_cases h1 : a.toNat < b.toNat
    · exact Or.inl (by simp [charListLe, h1])
    · by_cases h2 : b.toNat < a.toNat
      · exact Or.inr (by simp [charListLe, h1, h2])
      · rcases charListLe_total as bs with h | h
        · exact Or.inl (by simp [charListLe, h1, h2, h])
        · exact Or.inr (by simp [charListLe, h1, h2, h])

theorem charListLe_trans : ∀ xs ys zs : List Char,
    charListLe xs ys = true → charListLe ys zs = true → charListLe xs zs = true
  | [], _, _, _, _ => rfl
  | _ :: _, [], _, h1, _ => by simp [charListLe] at h1
  | _ :: _, _ :: _, [], _, h2 => by simp [charListLe] at h2
  | a :: as, b :: bs, c :: cs, h1, h2 => by
    simp only [charListLe] at h1 h2 ⊢
    by_cases hab : a.toNat < b.toNat
    · by_cases hbc : b.toNat < c.toNat
      · simp [Nat.lt_trans hab hbc]
      · by_cases hcb : c.toNat < b.toNat
        · simp [hbc, hcb] at h2
        · have hbceq : b.toNat = c.toNat :=
            Nat.le_antisymm (Nat.not_lt.mp hcb) (Nat.not_lt.mp hbc)
          simp [hbceq ▸ hab]
    · by_cases hba : b.toNat < a.toNat
      · simp [hab, hba] at h1
      · have habeq : a.toNat = b.toNat :=
          Nat.le_antisymm (Nat.not_lt.mp hba) (Nat.not_lt.mp hab)
        simp [hab, hba] at h1
        by_cases hbc : b.toNat < c.toNat
        · simp [habeq ▸ hbc]
        · by_cases hcb : c.toNat < b.toNat
          · simp [hbc, hcb] at h2
          · simp [hbc, hcb] at h2
            have hac : ¬ a.toNat < c.toNat := by omega
            have hca : ¬ c.toNat < a.toNat := by omega
            simp [hac, hca]
            exact charListLe_trans as bs cs h1 h2

theorem pyStrLe_total (a b : String) : pyStrLe a b = true ∨ pyStrLe b a = true :=
  charListLe_total a.data b.data

theorem pyStrLe_trans {a b c : String} (h1 : pyStrLe a b = true) (h2 : pyStrLe b c = true) :
    pyStrLe a c = true :=
  charListLe_trans a.data b.data c.data h1 h2

theorem rankRel_total (a b : RawItem) : SendOtt.rankRel a b ∨ SendOtt.rankRel b a :=
  (le_total (SendOtt.rating_key b) (SendOtt.rating_key a)).imp id id

theorem rankRel_trans (a b c : RawItem)
    (h1 : SendOtt.rankRel a b) (h2 : SendOtt.rankRel b c) : SendOtt.rankRel a c :=
  le_trans h2 h1

theorem entryRel_total (a b : MainPy.Entry) : MainPy.entryRel a b ∨ MainPy.entryRel b a := by
  rcases lt_trichotomy (MainPy.entry_rating_key a) (MainPy.entry_rating_key b) with h | h | h
  · exact Or.inr (Or.inl h)
  · rcases pyStrLe_total a.title b.title with ht | ht
    · exact Or.inr (Or.inr ⟨h.symm, ht⟩)
    · exact Or.inl (Or.inr ⟨h, ht⟩)
  · exact Or.inl (Or.inl h)

theorem entryRel_trans (a b c : MainPy.Entry)
    (h1 : MainPy.entryRel a b) (h2 : MainPy.entryRel b c) : MainPy.entryRel a c := by
  rcases h1 with h1 | ⟨h1e, h1t⟩ <;> rcases h2 with h2 | ⟨h2e, h2t⟩
  · exact Or.inl (lt_trans h2 h1)
  · exact Or.inl (by rw [← h2e]; exact h1)
  · exact Or.inl (by rw [h1e]; exact h2)
  · exact Or.inr ⟨h1e.trans h2e, pyStrLe_trans h2t h1t⟩

theorem dedupeAux_sublist : ∀ (l : List RawItem) (seen : List (String × Option Int)),
    List.Sublist (SendOtt.dedupeAux l seen) l
  | [], _ => List.Sublist.refl []
  | it :: rest, seen => by
    by_cases h : SendOtt.itemKey it ∈ seen
    · simp only [SendOtt.dedupeAux, if_pos h]
      exact (dedupeAux_sublist rest seen).cons it
    · simp only [SendOtt.dedupeAux, if_neg h]
      exact (dedupeAux_sublist rest _).cons₂ it

theorem dedupeAux_key_not_seen : ∀ (l : List RawItem) (seen : List (String × Option Int))
    (u : RawItem), u ∈ SendOtt.dedupeAux l seen → SendOtt.itemKey u ∉ seen
  | [], _, _, h => absurd h (List.not_mem_nil _)
  | it :: rest, seen, u, h => by
    by_cases hk : SendOtt.itemKey it ∈ seen
    · rw [SendOtt.dedupeAux, if_pos hk] at h
      exact dedupeAux_key_not_seen rest seen u h
    · rw [SendOtt.dedupeAux, if_neg hk] at h
      rcases List.mem_cons.mp h with rfl | h2
      · exact hk
      · have h3 := dedupeAux_key_not_seen rest _ u h2
        exact fun hs => h3 (List.mem_cons_of_mem _ hs)

theorem dedupeAux_pairwise : ∀ (l : List RawItem) (seen : List (String × Option Int)),
    (SendOtt.dedupeAux l seen).Pairwise (fun a b => SendOtt.itemKey a ≠ SendOtt.itemKey b)
  | [], _ => List.Pairwise.nil
  | it :: rest, seen => by
    by_cases hk : SendOtt.itemKey it ∈ seen
    · rw [SendOtt.dedupeAux, if_pos hk]
      exact dedupeAux_pairwise rest seen
    · rw [SendOtt.dedupeAux, if_neg hk]
      refine List.Pairwise.cons ?_ (dedupeAux_pairwise rest _)
      intro b hb he
      have h3 := dedupeAux_key_not_seen rest _ b hb
      exact h3 (by rw [← he]; exact List.mem_cons_self _ _)

theorem dedupeAux_covers : ∀ (l : List RawItem) (seen : List (String × Option Int))
    (it : RawItem), it ∈ l →
    SendOtt.itemKey it ∈ seen ∨
      ∃ u ∈ SendOtt.dedupeAux l seen, SendOtt.itemKey u = SendOtt.itemKey it
  | [], _, _, h => absurd h (List.not_mem_nil _)
  | x :: rest, seen, it, h => by
    rcases List.mem_cons.mp h with rfl | hmem
    · by_cases hk : SendOtt.itemKey it ∈ seen
      · exact Or.inl hk
      · right
        rw [SendOtt.dedupeAux, if_neg hk]
        exact ⟨it, List.mem_cons_self _ _, rfl⟩
    · by_cases hk : SendOtt.itemKey x ∈ seen
      · rcases dedupeAux_covers rest seen it hmem with h1 | ⟨u, hu, he⟩
        · exact Or.inl h1
        · right
          rw [SendOtt.dedupeAux, if_pos hk]
          exact ⟨u, hu, he⟩
      · rcases dedupeAux_covers rest (SendOtt.itemKey x :: seen) it hmem with h1 | ⟨u, hu, he⟩
        · rcases List.mem_cons.mp h1 with he2 | hs
          · right
            rw [SendOtt.dedupeAux, if_neg hk]
            exact ⟨x, List.mem_cons_self _ _, he2.symm⟩
          · exact Or.inl hs
        · right
          rw [SendOtt.dedupeAux, if_neg hk]
          exact ⟨u, List.mem_cons_of_mem _ hu, he⟩

theorem windowCheck_elim2 {s e : Date} {str : String}
    (h : (match parseDate str with
          | none => false
          | some d => Date.le s d && Date.le d e) = true) :
    ∃ d, parseDate str = some d ∧ Date.le s d = true ∧ Date.le d e = true := by
  cases hp : parseDate str with
  | none => rw [hp] at h; exact absurd h (by simp)
  | some d =>
    rw [hp] at h
    simp only [Bool.and_eq_true] at h
    exact ⟨d, rfl, h.1, h.2⟩

theorem windowCheck_elim {s e : Date} {str : String}
    (h : (if strEmpty str then false
          else match parseDate str with
            | none => false
            | some d => Date.le s d && Date.le d e) = true) :
    ∃ d, parseDate str = some d ∧ Date.le s d = true ∧ Date.le d e = true := by
  by_cases h0 : strEmpty str
  · rw [if_pos h0] at h
    exact absurd h (by simp)
  · rw [if_neg h0] at h
    exact windowCheck_elim2 h

theorem keepInWindow_window {s e : Date} {it : RawItem}
    (h : SendOtt.keepInWindow s e it = true) :
    ∃ d, parseDate (SendOtt.releaseDateStrOf it) = some d ∧
      Date.le s d = true ∧ Date.le d e = true := by
  obtain ⟨t, n, o, rd, fad, rd2, orl, yr, si, ir, pl⟩ := it
  cases rd with
  | some s0 =>
    by_cases h0 : strEmpty s0
    · cases fad with
      | none =>
        simp only [SendOtt.keepInWindow, pyOr, h0, if_true] at h
        exact absurd h (by simp)
      | some t0 =>
        simp only [SendOtt.keepInWindow, pyOr, h0, if_true] at h
        simp only [SendOtt.releaseDateStrOf, h0, if_true, Option.getD_some]
        exact windowCheck_elim h
    · simp only [SendOtt.keepInWindow, pyOr, h0, if_false, Bool.false_eq_true] at h
      simp only [SendOtt.releaseDateStrOf, h0, if_false, Bool.false_eq_true]
      exact windowCheck_elim2 h
  | none =>
    cases fad with
    | none =>
      simp only [SendOtt.keepInWindow, pyOr] at h
      exact absurd h (by simp)
    | some t0 =>
      simp only [SendOtt.keepInWindow, pyOr] at h
      simp only [SendOtt.releaseDateStrOf, Option.getD_some]
      exact windowCheck_elim h

theorem dateVal_window {s e : Date} {it : RawItem} {d : Date}
    (h : MainPy.dateVal s e it = some d) :
    Date.le s d = true ∧ Date.le d e = true := by
  unfold MainPy.dateVal at h
  cases hrd : MainPy.dateChain it with
  | none => rw [hrd] at h; exact absurd h (by simp)
  | some rd =>
    rw [hrd] at h
    simp only [] at h
    by_cases h0 : strEmpty rd
    · rw [if_pos h0] at h; exact absurd h (by simp)
    · rw [if_neg h0] at h
      cases hp : parseDate (String.mk (rd.data.take 10)) with
      | none => rw [hp] at h; exact absurd h (by simp)
      | some d0 =>
        rw [hp] at h
        dsimp only at h
        by_cases hw : (Date.le s d0 && Date.le d0 e) = true
        · rw [if_pos hw] at h
          cases h
          simp only [Bool.and_eq_true] at hw
          exact ⟨hw.1, hw.2⟩
        · rw [if_neg hw] at h
          exact absurd h (by simp)

/- Claim theorems. -/

/-- C7. Plot truncation: for every plot string the formatter keeps a plot of
350 characters or less unchanged, and replaces a longer plot by its first 347
characters followed by "...", for a total of exactly 350 characters; hence
the displayed plot never exceeds 350 characters. -/
theorem claim7_plot_truncation (plot : String) :
    (350 < plot.length →
      (truncatePlot plot).data = plot.data.take 347 ++ ("...").data ∧
      (truncatePlot plot).length = 350)
    ∧ (plot.length ≤ 350 → truncatePlot plot = plot)
    ∧ (truncatePlot plot).length ≤ 350 := by
  refine ⟨fun h => ?_, fun h => ?_, ?_⟩
  · unfold truncatePlot
    rw [if_pos h]
    refine ⟨by simp, ?_⟩
    simp only [String.length_append]
    have h1 : (String.mk (plot.data.take 347)).length = 347 := by
      show (plot.data.take 347).length = 347
      rw [List.length_take]
      have : plot.length = plot.data.length := rfl
      omega
    have h2 : ("..." : String).length = 3 := rfl
    omega
  · unfold truncatePlot
    rw [if_neg (by omega)]
  · unfold truncatePlot
    by_cases h : plot.length > 350
    · rw [if_pos h]
      simp only [String.length_append]
      have h1 : (String.mk (plot.data.take 347)).length ≤ 347 := by
        show (plot.data.take 347).length ≤ 347
        rw [List.length_take]
        omega
      have h2 : ("..." : String).length = 3 := rfl
      omega
    · rw [if_neg h]
      omega

/-- C7 witness: the truncation evaluated at a 351-character plot and at a
one-character plot. -/
theorem claim7_witness :
    (truncatePlot longPlot).length = 350 ∧ truncatePlot "p" = "p" := by
  have hlen : longPlot.length = 351 := by
    show (List.replicate 351 'x').length = 351
    exact List.length_replicate 351 'x'
  exact ⟨((claim7_plot_truncation longPlot).1 (by omega)).2,
    (claim7_plot_truncation "p").2.1 (by decide)⟩

/-- C8. Notifier credential handling: for every message text, when the bot
token or the chat id is falsy both notifiers return the skipped outcome
carrying the warning they print, without any HTTP POST; and the main.py run
still completes with exit status 0, handing the notifier exactly that skipped
outcome. -/
theorem claim8_notifier_credentials (t c : Option String) (text : String)
    (h : truthy t = false ∨ truthy c = false) :
    MainPy.send_telegram t c text = SendOutcome.skipped "Missing Telegram credentials."
    ∧ SendOtt.send_telegram_message t c text =
        SendOutcome.skipped
          "Telegram credentials (BOT_TOKEN, CHAT_ID) are not set. Skipping message send."
    ∧ ∀ (sk ok : Option String) (s e : Date) (pages : Nat → List RawItem)
        (net : String → Option OmdbResp),
        (MainPy.mainRun sk ok t c s e pages net).exitCode = 0 ∧
        (MainPy.mainRun sk ok t c s e pages net).sent =
          SendOutcome.skipped "Missing Telegram credentials." := by
  have hb : (!truthy t || !truthy c) = true := by
    rcases h with h | h <;> simp [h]
  refine ⟨?_, ?_, fun sk ok s e pages net => ⟨rfl, ?_⟩⟩
  · unfold MainPy.send_telegram
    rw [if_pos hb]
  · unfold SendOtt.send_telegram_message
    rw [if_pos hb]
  · show MainPy.send_telegram t c _ = _
    unfold MainPy.send_telegram
    rw [if_pos hb]

/-- C8 witness: the notifier and the full main.py run evaluated with the bot
token absent. -/
theorem claim8_witness :
    MainPy.send_telegram none (some "cid") "hello" =
      SendOutcome.skipped "Missing Telegram credentials."
    ∧ (MainPy.mainRun none none none (some "cid") cw1 cw7 pagesEmpty netNone).exitCode = 0 := by
  have h := claim8_notifier_credentials none (some "cid") "hello" (Or.inl rfl)
  exact ⟨h.1, (h.2.2 none none cw1 cw7 pagesEmpty netNone).1⟩

/-- C9 counterexample: with all four secrets absent, main() of
send_ott_updates.py prints its abort message and returns normally: the
process exit status is 0, not the nonzero status the claim requires, and
main.py performs no startup check at all. -/
theorem claim9_counterexample :
    SendOtt.mainRun none none none none cw1 cw7 pagesEmpty netEmpty =
      ⟨true, false, none, 0⟩
    ∧ (SendOtt.mainRun none none none none cw1 cw7 pagesEmpty netEmpty).exitCode = 0 := by
  exact ⟨rfl, rfl⟩

/-- C9 amended: when any of the four secrets is falsy, send_ott_updates.py
aborts before any pipeline work with a descriptive message but exits with
status 0 (soft skip, not a nonzero hard abort); main.py has no startup check
and always runs the full pipeline and formats its message, whatever the
secrets hold. -/
theorem claim9_startup_amended :
    (∀ (sk ok t c : Option String) (s e : Date) (pages : Nat → List RawItem)
        (net : String → OmdbResp),
      truthy sk = false ∨ truthy ok = false ∨ truthy t = false ∨ truthy c = false →
      SendOtt.mainRun sk ok t c s e pages net = ⟨true, false, none, 0⟩)
    ∧ (∀ (sk ok t c : Option String) (s e : Date) (pages : Nat → List RawItem)
        (net : String → Option OmdbResp),
      (MainPy.mainRun sk ok t c s e pages net).message =
        MainPy.format_message (MainPy.build_weekly_list ok pages net s e) s e) := by
  constructor
  · intro sk ok t c s e pages net h
    unfold SendOtt.mainRun
    have hb : (!(truthy sk && truthy ok && truthy t && truthy c)) = true := by
      rcases h with h | h | h | h <;> simp [h]
    rw [if_pos hb]
  · intro sk ok t c s e pages net
    rfl

/-- C9 witness: the soft-skip branch evaluated with only the streaming key
missing. -/
theorem claim9_witness :
    SendOtt.mainRun none (some "o") (some "t") (some "c") cw1 cw7 pagesEmpty netEmpty =
      ⟨true, false, none, 0⟩ :=
  claim9_startup_amended.1 none (some "o") (some "t") (some "c") cw1 cw7 pagesEmpty netEmpty
    (Or.inl rfl)

/-- C10 counterexample: a 300 status is not 2xx, yet raise_for_status only
raises for 400-599, so safe_get returns the parsed JSON body unchanged
rather than the empty dict the claim requires for every non-2xx outcome. -/
theorem claim10_counterexample :
    safe_get (HttpOutcome.response 300 (some (Json.obj [("k", "v")]))) =
      Json.obj [("k", "v")]
    ∧ Json.obj [("k", "v")] ≠ Json.obj []
    ∧ ¬ (200 ≤ 300 ∧ 300 ≤ 299) := by
  exact ⟨rfl, by decide, by omega⟩

/-- C10 amended: safe_get is total and returns the empty dict on a transport
error, on any 4xx or 5xx status (the statuses raise_for_status raises for),
and on a body that does not parse as JSON; a non-2xx status outside 400-599
with a JSON body is returned as-is. -/
theorem claim10_safe_get_amended (o : HttpOutcome)
    (h : o = HttpOutcome.transportError
      ∨ (∃ st body, o = HttpOutcome.response st body ∧ 400 ≤ st ∧ st ≤ 599)
      ∨ (∃ st, o = HttpOutcome.response st none)) :
    safe_get o = Json.obj [] := by
  rcases h with rfl | ⟨st, body, rfl, h1, h2⟩ | ⟨st, rfl⟩
  · rfl
  · unfold safe_get
    dsimp only
    rw [if_pos ⟨h1, h2⟩]
  · unfold safe_get
    dsimp only
    split
    · rfl
    · rfl

/-- C10 witness: the failure clauses evaluated at a transport error and at a
404 status. -/
theorem claim10_witness :
    safe_get HttpOutcome.transportError = Json.obj []
    ∧ safe_get (HttpOutcome.response 404 (some (Json.obj [("k", "v")]))) = Json.obj [] := by
  exact ⟨claim10_safe_get_amended HttpOutcome.transportError (Or.inl rfl),
    claim10_safe_get_amended (HttpOutcome.response 404 (some (Json.obj [("k", "v")])))
      (Or.inr (Or.inl ⟨404, some (Json.obj [("k", "v")]), rfl, by omega, by omega⟩))⟩

/-- C3. Ranking order: both ranked outputs are sorted by rating key in
descending order - whenever position i precedes position j the key at j is at
most the key at i, so an item with a strictly larger parsed rating always
precedes one with a smaller parsed rating - and a missing or unparseable
rating field gives key 0.0. -/
theorem claim3_ranking :
    (∀ (l : List RawItem) (i j : Fin (SendOtt.rank_releases l).length),
      (i : Nat) < (j : Nat) →
      SendOtt.rating_key ((SendOtt.rank_releases l).get j) ≤
        SendOtt.rating_key ((SendOtt.rank_releases l).get i))
    ∧ (∀ (l : List MainPy.Entry) (i j : Fin (MainPy.sortEntries l).length),
      (i : Nat) < (j : Nat) →
      MainPy.entry_rating_key ((MainPy.sortEntries l).get j) ≤
        MainPy.entry_rating_key ((MainPy.sortEntries l).get i))
    ∧ (∀ it : RawItem, it.imdbRating = none → SendOtt.rating_key it = 0)
    ∧ (∀ (it : RawItem) (s : String), it.imdbRating = some s → parseDecimal s = none →
        SendOtt.rating_key it = 0)
    ∧ (∀ e : MainPy.Entry, parseDecimal e.imdb = none → MainPy.entry_rating_key e = 0) := by
  refine ⟨?_, ?_, ?_, ?_, ?_⟩
  · intro l i j hij
    haveI : IsTotal RawItem SendOtt.rankRel := ⟨rankRel_total⟩
    haveI : IsTrans RawItem SendOtt.rankRel := ⟨rankRel_trans⟩
    have hs : (SendOtt.rank_releases l).Pairwise SendOtt.rankRel :=
      List.sorted_insertionSort SendOtt.rankRel l
    exact List.pairwise_iff_get.mp hs i j hij
  · intro l i j hij
    haveI : IsTotal MainPy.Entry MainPy.entryRel := ⟨entryRel_total⟩
    haveI : IsTrans MainPy.Entry MainPy.entryRel := ⟨entryRel_trans⟩
    have hs : (MainPy.sortEntries l).Pairwise MainPy.entryRel :=
      List.sorted_insertionSort MainPy.entryRel l
    rcases List.pairwise_iff_get.mp hs i j hij with hlt | ⟨heq, _⟩
    · exact le_of_lt hlt
    · exact le_of_eq heq.symm
  · intro it h
    simp [SendOtt.rating_key, h]
  · intro it s h hp
    simp [SendOtt.rating_key, h, hp]
  · intro e hp
    simp [MainPy.entry_rating_key, hp]

/-- C3 witness: the descending order evaluated on a concrete two-item ranked
list, and the 0.0 default on an item without a rating field. -/
theorem claim3_witness :
    SendOtt.rating_key ((SendOtt.rank_releases [tieA, tieB]).get ⟨1, by decide⟩) ≤
      SendOtt.rating_key ((SendOtt.rank_releases [tieA, tieB]).get ⟨0, by decide⟩)
    ∧ SendOtt.rating_key plainItem = 0 :=
  ⟨claim3_ranking.1 [tieA, tieB] ⟨0, by decide⟩ ⟨1, by decide⟩ (by decide),
    claim3_ranking.2.2.1 plainItem rfl⟩

/-- C4 counterexample: two items with equal parsed ratings 7.5 and titles
Apple, Banana; rank_releases of send_ott_updates.py keeps them in input
order, Apple first, although reverse-alphabetical order would put Banana
first - so the claimed tie-break does not hold of that variant. -/
theorem claim4_counterexample :
    SendOtt.rank_releases [tieA, tieB] = [tieA, tieB]
    ∧ SendOtt.rating_key tieA = SendOtt.rating_key tieB
    ∧ SendOtt.titleOf tieA = "Apple" ∧ SendOtt.titleOf tieB = "Banana"
    ∧ pyStrLe "Apple" "Banana" = true ∧ "Apple" ≠ "Banana" := by
  exact ⟨by decide, by decide, rfl, rfl, by decide, by decide⟩

/-- C4 amended: in main.py the sort key is the (rating, title) pair reversed,
so among equal parsed ratings titles appear in reverse-alphabetical
(descending) order; rank_releases of send_ott_updates.py sorts on the rating
alone and leaves equal-rating items in their input order (no title
tie-break), as the counterexample shows. -/
theorem claim4_tiebreak_amended (l : List MainPy.Entry)
    (i j : Fin (MainPy.sortEntries l).length) (hij : (i : Nat) < (j : Nat))
    (heq : MainPy.entry_rating_key ((MainPy.sortEntries l).get i) =
      MainPy.entry_rating_key ((MainPy.sortEntries l).get j)) :
    pyStrLe ((MainPy.sortEntries l).get j).title ((MainPy.sortEntries l).get i).title = true := by
  haveI : IsTotal MainPy.Entry MainPy.entryRel := ⟨entryRel_total⟩
  haveI : IsTrans MainPy.Entry MainPy.entryRel := ⟨entryRel_trans⟩
  have hs : (MainPy.sortEntries l).Pairwise MainPy.entryRel :=
    List.sorted_insertionSort MainPy.entryRel l
  rcases List.pairwise_iff_get.mp hs i j hij with hlt | ⟨_, ht⟩
  · exact absurd hlt (by rw [heq]; exact lt_irrefl _)
  · exact ht

/-- C4 witness: the main.py tie-break evaluated on two equal-rating entries;
the sort puts Banana before Apple and the theorem yields the descending title
comparison. -/
theorem claim4_witness :
    pyStrLe ((MainPy.sortEntries [entryA, entryB]).get ⟨1, by decide⟩).title
      ((MainPy.sortEntries [entryA, entryB]).get ⟨0, by decide⟩).title = true :=
  claim4_tiebreak_amended [entryA, entryB] ⟨0, by decide⟩ ⟨1, by decide⟩ (by decide) (by decide)

/-- C2 counterexample: main.py has no deduplication stage; when the fetched
result array holds the same in-window record twice, build_weekly_list emits
two entries with that identical (title, year) identity, not exactly one. -/
theorem claim2_counterexample :
    pagesDup 1 = [dupItem, dupItem]
    ∧ (MainPy.build_weekly_list none pagesDup netNone cw1 cw7).length = 2
    ∧ ∀ ent ∈ MainPy.build_weekly_list none pagesDup netNone cw1 cw7, ent.title = "Dup" := by
  exact ⟨rfl, by decide, by decide⟩

/-- C2 amended: fetch_new_releases of send_ott_updates.py deduplicates on
(title, year): its output has pairwise distinct keys, is a subsequence of the
window-filtered fetch list (so survivors keep first-seen order), and covers
every key of that list; main.py performs no deduplication and can emit the
same key twice, as the counterexample shows. -/
theorem claim2_dedup_amended :
    (∀ (pages : Nat → List RawItem) (s e : Date),
      (SendOtt.fetch_new_releases pages s e).Pairwise
        (fun a b => SendOtt.itemKey a ≠ SendOtt.itemKey b))
    ∧ (∀ (pages : Nat → List RawItem) (s e : Date),
      List.Sublist (SendOtt.fetch_new_releases pages s e)
        (SendOtt.filteredReleases pages s e))
    ∧ (∀ (pages : Nat → List RawItem) (s e : Date) (it : RawItem),
      it ∈ SendOtt.filteredReleases pages s e →
      ∃ u ∈ SendOtt.fetch_new_releases pages s e,
        SendOtt.itemKey u = SendOtt.itemKey it) := by
  refine ⟨fun pages s e => ?_, fun pages s e => ?_, fun pages s e it h => ?_⟩
  · exact dedupeAux_pairwise _ []
  · exact dedupeAux_sublist _ []
  · rcases dedupeAux_covers _ [] it h with h1 | h2
    · exact absurd h1 (List.not_mem_nil _)
    · exact h2

/-- C2 witness: the dedup cover clause evaluated on the duplicate page
oracle: the duplicated record keeps exactly its key in the output. -/
theorem claim2_witness :
    ∃ u ∈ SendOtt.fetch_new_releases pagesDup cw1 cw7,
      SendOtt.itemKey u = SendOtt.itemKey dupItem :=
  claim2_dedup_amended.2.2 pagesDup cw1 cw7 dupItem (by decide)

theorem fetch_mem_window {pages : Nat → List RawItem} {s e : Date} {it : RawItem}
    (hmem : it ∈ SendOtt.fetch_new_releases pages s e) :
    ∃ d, parseDate (SendOtt.releaseDateStrOf it) = some d ∧
      Date.le s d = true ∧ Date.le d e = true := by
  have hsub := dedupeAux_sublist (SendOtt.filteredReleases pages s e) []
  have hf : it ∈ SendOtt.filteredReleases pages s e := hsub.subset hmem
  exact keepInWindow_window (List.mem_filter.mp hf).2

/-- C1. Window filtering: every item of the final ranked list that the send
variant formats has a release date that parses and lies inside [start, end]
(so the stronger left disjunct of the claim always holds and no parseable
out-of-window date ever appears); likewise every entry main.py formats
carries the rendered form of an in-window date; and in the spec scenario with
window 2024-01-01..2024-01-07 and fetched items dated 2024-01-03 and
2023-12-20, only the first survives. -/
theorem claim1_window_filtering :
    (∀ (pages : Nat → List RawItem) (s e : Date) (k : Option String)
        (net : String → OmdbResp) (it : RawItem),
      it ∈ SendOtt.rank_releases
          (SendOtt.enrich_with_omdb k net (SendOtt.fetch_new_releases pages s e)) →
      ∃ d, parseDate (SendOtt.releaseDateStrOf it) = some d ∧
        Date.le s d = true ∧ Date.le d e = true)
    ∧ (∀ (ok : Option String) (pages : Nat → List RawItem)
        (net : String → Option OmdbResp) (s e : Date) (ent : MainPy.Entry),
      ent ∈ MainPy.build_weekly_list ok pages net s e →
      ∃ d, Date.le s d = true ∧ Date.le d e = true ∧ ent.release_date = Date.fmtDMY d)
    ∧ SendOtt.fetch_new_releases pagesAB cw1 cw7 = [itemA] := by
  refine ⟨?_, ?_, by decide⟩
  · intro pages s e k net it hmem
    have hmem2 : it ∈ SendOtt.enrich_with_omdb k net (SendOtt.fetch_new_releases pages s e) := by
      simpa [SendOtt.rank_releases] using hmem
    unfold SendOtt.enrich_with_omdb at hmem2
    by_cases hk : (!truthy k) = true
    · rw [if_pos hk] at hmem2
      exact fetch_mem_window hmem2
    · rw [if_neg hk] at hmem2
      rcases List.mem_map.mp hmem2 with ⟨pre, hpre, heq⟩
      rcases fetch_mem_window hpre with ⟨d, hd, h1, h2⟩
      rw [← heq]
      exact ⟨d, hd, h1, h2⟩
  · intro ok pages net s e ent hmem
    unfold MainPy.build_weekly_list at hmem
    have hmem2 : ent ∈ (pages 1 ++ pages 2).filterMap (fun it =>
        match MainPy.dateVal s e it with
        | none => none
        | some d =>
          some ⟨MainPy.titleOf it, d.fmtDMY, MainPy.platformsStr it,
            (MainPy.omdb_info_by_title ok net (MainPy.titleOf it)).imdbRating,
            (MainPy.omdb_info_by_title ok net (MainPy.titleOf it)).Plot⟩) := by
      simpa [MainPy.sortEntries] using hmem
    rcases List.mem_filterMap.mp hmem2 with ⟨it, _, hf⟩
    cases hd : MainPy.dateVal s e it with
    | none => rw [hd] at hf; exact absurd hf (by simp)
    | some d =>
      rw [hd] at hf
      have hw := dateVal_window hd
      refine ⟨d, hw.1, hw.2, ?_⟩
      cases hf
      rfl

/-- C1 witness: the window property evaluated at the scenario input and its
surviving item. -/
theorem claim1_witness :
    ∃ d, parseDate (SendOtt.releaseDateStrOf itemA) = some d ∧
      Date.le cw1 d = true ∧ Date.le d cw7 = true :=
  claim1_window_filtering.1 pagesAB cw1 cw7 none netEmpty itemA (by decide)

/-- C5 counterexample: in send_ott_updates.py a failed lookup fills the plot
field with "No plot available." - not the claimed sentinel "No plot
available" - and on the missing-API-key path enrich_with_omdb returns the
items with no field filled at all. -/
theorem claim5_counterexample :
    SendOtt.enrich_with_omdb (some "k") netEmpty [plainItem] =
      [SendOtt.setOmdbFields plainItem "N/A" "No plot available."]
    ∧ (SendOtt.setOmdbFields plainItem "N/A" "No plot available.").plot =
        some "No plot available."
    ∧ "No plot available." ≠ "No plot available"
    ∧ SendOtt.enrich_with_omdb none netEmpty [plainItem] = [plainItem]
    ∧ plainItem.plot = none := by
  exact ⟨by decide, rfl, by decide, rfl, rfl⟩

/-- C5 amended: a failed ratings lookup never drops an item or aborts the
batch. In main.py every failure path (missing key, exception, reply without
the fields - the Response False case) yields exactly the claimed sentinels
rating "N/A" and plot "No plot available". In send_ott_updates.py the
enriched list always keeps every item; a failed lookup fills rating "N/A"
and plot "No plot available." (trailing period), and those are also the
defaults its formatter renders, while the missing-key path returns the items
unmodified and relies on the formatter defaults. -/
theorem claim5_enrichment_amended :
    (∀ (net : String → Option OmdbResp) (title : String),
      MainPy.omdb_info_by_title none net title = ⟨"N/A", "No plot available"⟩)
    ∧ (∀ (k : Option String) (net : String → Option OmdbResp) (title : String),
      net title = none →
      MainPy.omdb_info_by_title k net title = ⟨"N/A", "No plot available"⟩)
    ∧ (∀ (k : Option String) (net : String → Option OmdbResp) (title : String),
      net title = some ⟨none, none⟩ →
      MainPy.omdb_info_by_title k net title = ⟨"N/A", "No plot available"⟩)
    ∧ (∀ (k : Option String) (net : String → OmdbResp) (rel : List RawItem),
      (SendOtt.enrich_with_omdb k net rel).length = rel.length)
    ∧ (∀ (k : Option String) (net : String → OmdbResp) (rel : List RawItem) (it : RawItem),
      truthy k = true → it ∈ rel → net (SendOtt.titleOf it) = ⟨none, none⟩ →
      ∃ u ∈ SendOtt.enrich_with_omdb k net rel,
        u.imdbRating = some "N/A" ∧ u.plot = some "No plot available." ∧
        SendOtt.titleOf u = SendOtt.titleOf it)
    ∧ (∀ it : RawItem, it.imdbRating = some "N/A" → it.plot = some "No plot available." →
      SendOtt.itemBlock it =
        "📽️ *" ++ SendOtt.titleOf it ++ "* (IMDb: " ++ "N/A" ++ ")\n"
          ++ "🗓️ Release Date: " ++ SendOtt.releaseDateFormatted it ++ "\n"
          ++ "📺 Platform(s): " ++ SendOtt.platformsStr it ++ "\n"
          ++ "📝 " ++ "No plot available." ++ "\n\n") := by
  refine ⟨?_, ?_, ?_, ?_, ?_, ?_⟩
  · intro net title
    rfl
  · intro k net title h
    unfold MainPy.omdb_info_by_title
    rw [h]
    split <;> rfl
  · intro k net title h
    unfold MainPy.omdb_info_by_title
    rw [h]
    split <;> rfl
  · intro k net rel
    unfold SendOtt.enrich_with_omdb
    split
    · rfl
    · exact List.length_map rel _
  · intro k net rel it hk hmem hnet
    unfold SendOtt.enrich_with_omdb
    rw [if_neg (by simp [hk])]
    refine ⟨_, List.mem_map_of_mem _ hmem, ?_, ?_, rfl⟩
    · show some ((net (SendOtt.titleOf it)).imdbRating.getD "N/A") = some "N/A"
      rw [hnet]
      rfl
    · show some ((net (SendOtt.titleOf it)).Plot.getD "No plot available.") =
        some "No plot available."
      rw [hnet]
      rfl
  · intro it h1 h2
    unfold SendOtt.itemBlock
    rw [h1, h2]
    rfl

/-- C5 witness: the main.py sentinel paths and the send-variant keep-and-fill
property evaluated at concrete failing lookups. -/
theorem claim5_witness :
    MainPy.omdb_info_by_title (some "key") netNone "X" = ⟨"N/A", "No plot available"⟩
    ∧ (SendOtt.enrich_with_omdb (some "key") netEmpty [plainItem]).length = 1
    ∧ ∃ u ∈ SendOtt.enrich_with_omdb (some "key") netEmpty [plainItem],
        u.imdbRating = some "N/A" ∧ u.plot = some "No plot available." ∧
        SendOtt.titleOf u = SendOtt.titleOf plainItem :=
  ⟨claim5_enrichment_amended.2.1 (some "key") netNone "X" rfl,
    claim5_enrichment_amended.2.2.2.1 (some "key") netEmpty [plainItem],
    claim5_enrichment_amended.2.2.2.2.1 (some "key") netEmpty [plainItem] plainItem rfl
      (by decide) rfl⟩

/-- C6 counterexample: with zero survivors, main() of send_ott_updates.py
hands the notifier an inline message built at line 206, which differs from
the one-sentence empty output of its formatter (the formatter wraps the
sentence in asterisks) - so the notifier is not invoked with the formatter
message as the claim states. -/
theorem claim6_counterexample :
    (SendOtt.mainRun (some "s") (some "o") (some "t") (some "c") cw1 cw7 pagesEmpty
        netEmpty).sent =
      some (SendOutcome.posted "c" (SendOtt.noReleasesInline cw1 cw7))
    ∧ SendOtt.noReleasesInline cw1 cw7 ≠ SendOtt.format_telegram_message [] cw1 cw7 := by
  exact ⟨rfl, by decide⟩

/-- C6 amended: with zero surviving items each formatter returns exactly one
no-releases sentence naming the window start and end (no header, no item
lines); main.py then always hands the notifier exactly its formatter output,
while send_ott_updates.py, when its fetch stage returns nothing, still
invokes the notifier but with an inline no-releases sentence built in main()
instead of the formatter output. -/
theorem claim6_empty_amended :
    (∀ s e : Date, MainPy.format_message [] s e =
      "🎬 No OTT releases found between " ++ Date.iso s ++ " and " ++ Date.iso e ++ ".")
    ∧ (∀ (sk ok t c : Option String) (s e : Date) (pages : Nat → List RawItem)
        (net : String → Option OmdbResp),
      MainPy.build_weekly_list ok pages net s e = [] →
      (MainPy.mainRun sk ok t c s e pages net).sent =
        MainPy.send_telegram t c (MainPy.format_message [] s e))
    ∧ (∀ s e : Date, SendOtt.format_telegram_message [] s e =
      "🎬 *No new OTT releases found for " ++ Date.fmtDM s ++ " - " ++ Date.fmtDM e ++ "*")
    ∧ (∀ (sk ok t c : Option String) (s e : Date) (pages : Nat → List RawItem)
        (net : String → OmdbResp),
      truthy sk = true → truthy ok = true → truthy t = true → truthy c = true →
      SendOtt.fetch_new_releases pages s e = [] →
      (SendOtt.mainRun sk ok t c s e pages net).sent =
        some (SendOtt.send_telegram_message t c (SendOtt.noReleasesInline s e))) := by
  refine ⟨fun s e => rfl, ?_, fun s e => rfl, ?_⟩
  · intro sk ok t c s e pages net h
    show MainPy.send_telegram t c
        (MainPy.format_message (MainPy.build_weekly_list ok pages net s e) s e) = _
    rw [h]
  · intro sk ok t c s e pages net h1 h2 h3 h4 hf
    unfold SendOtt.mainRun
    rw [if_neg (by simp [h1, h2, h3, h4]), hf]
    rfl

/-- C6 witness: both empty-path behaviors evaluated at the concrete window
2024-01-01..2024-01-07 with an empty fetch. -/
theorem claim6_witness :
    (MainPy.mainRun none none none none cw1 cw7 pagesEmpty netNone).sent =
      MainPy.send_telegram none none (MainPy.format_message [] cw1 cw7)
    ∧ (SendOtt.mainRun (some "s") (some "o") (some "t") (some "c") cw1 cw7 pagesEmpty
        netEmpty).sent =
      some (SendOtt.send_telegram_message (some "t") (some "c")
        (SendOtt.noReleasesInline cw1 cw7)) :=
  ⟨claim6_empty_amended.2.1 none none none none cw1 cw7 pagesEmpty netNone (by decide),
    claim6_empty_amended.2.2.2 (some "s") (some "o") (some "t") (some "c") cw1 cw7
      pagesEmpty netEmpty rfl rfl rfl rfl (by decide)⟩

end OTT
